import Mathlib

/-!
Shallow embedding of the autoscaling DNS handler
(`src/lambda/autoscale/autoscale.py`).

The lambda reconciles Route53 address records with the live membership of an
autoscaling group.  External collaborators (the autoscaling tag API, EC2
describe-instances, Route53 list/change record sets, and the lifecycle
completion call) are modelled as an oracle environment `Env`.  Each handler
function is translated into a pure Lean function that threads an explicit
`Effects` trace (tags written, Route53 reads, Route53 mutations, completion
signals) and returns `Option PyErr` for a propagated Python exception
(`botocore ClientError` carrying an error code, or a `KeyError` from a missing
message key).  Sets of IP address strings are `Finset String`, matching Python
set semantics.  Pagination loops are flattened: an oracle returns the
concatenation of all pages, which is how the source consumes them.  Logging is
modelled only where a claim depends on it (the severity of hostname-config
resolution failures); info-level progress logging is not tracked.
-/

/-! ## Basic data -/

inductive LogLevel
  | debug
  | info
  | warning
  | error
deriving DecidableEq

structure LogEntry where
  level : LogLevel
  msg : String
deriving DecidableEq

/-- A propagated Python exception: a `botocore.exceptions.ClientError` with its
`Error.Code`, or a `KeyError` on a missing dictionary key. -/
inductive PyErr
  | clientError (code : String)
  | keyError (key : String)
deriving DecidableEq

/-- One EC2 instance as returned by `describe_instances`: its id, its tag list,
and its optional primary IPv4 (`PublicIpAddress`/`PrivateIpAddress`, per the
`USE_PUBLIC_IP` configuration) and IPv6 addresses. -/
structure Ec2Instance where
  instanceId : String
  tags : List (String × String)
  ipv4 : Option String
  ipv6 : Option String
deriving DecidableEq

/-- One resource record set returned by `list_resource_record_sets`. -/
structure RRSet where
  name : String
  rtype : String
  values : List String
deriving DecidableEq

/-- One `change_resource_record_sets` call: zone, record name, record type,
action (the source's "UPSERT" / "DELETE" strings) and the submitted value
set. -/
structure Mutation where
  zone_id : String
  name : String
  record_type : String
  action : String
  values : Finset String
deriving DecidableEq

/-- Trace of externally visible side effects of a run: instances tagged with
the terminating marker, Route53 record reads (zone, record name, record type),
Route53 mutations, and lifecycle-completion signals
(hook, group, instance, token). -/
structure Effects where
  tagged : List String
  reads : List (String × String × String)
  mutations : List Mutation
  completions : List (String × String × String × String)
deriving DecidableEq

def Effects.empty : Effects := ⟨[], [], [], []⟩

/-- Oracle environment standing for the AWS collaborators.  `mutationResult m`
is `none` when the change batch succeeds and `some code` when it raises a
`ClientError` with that error code.  `completionResult` likewise gives the
`ClientError` code of `complete_lifecycle_action`, if any. -/
structure Env where
  asgTags : String → List (String × String)
  asgInstances : String → List Ec2Instance
  instById : String → List Ec2Instance
  listRecords : String → String → String → List RRSet
  mutationResult : Mutation → Option String
  completionResult : String → String → String → String → Option String

/-- A parsed SNS message: a JSON object restricted to the string fields the
handler reads.  Missing keys model `KeyError`. -/
abbrev Message := List (String × String)

def Message.get? (m : Message) (k : String) : Option String :=
  match m.find? (fun p => p.1 = k) with
  | some p => some p.2
  | none => none

/-! ## Constants from the source -/

def HOSTNAME_TAG_NAME : String := "asg:hostname"
def TERMINATING_TAG_NAME : String := "asg:terminating"
def TERMINATING_TAG_VALUE : String := "true"
def MODE_TAG_NAME : String := "asg:hostname_mode"
def MODE_SINGLE : String := "single"
def MODE_MULTI : String := "multi"
def MODE_DEFAULT : String := MODE_MULTI
def MODES_VALID : List String := [ MODE_SINGLE, MODE_MULTI ]

def LIFECYCLE_KEY : String := "LifecycleHookName"
def ASG_KEY : String := "AutoScalingGroupName"

def TRANSITION_LAUNCHING : String := "autoscaling:EC2_INSTANCE_LAUNCHING"
def TRANSITION_TERMINATING : String := "autoscaling:EC2_INSTANCE_TERMINATING"
def TRANSITION_LAUNCH_ERROR : String := "autoscaling:EC2_INSTANCE_LAUNCH_ERROR"

def logHostnameTagMissing : String := "Cannot find hostname tag for ASG"
def logHostnameTagMalformed : String := "hostname tag value does not contain @ZONE_ID"
def logUnknownMode : String := "mode tag value is an unknown mode"

/-! ## String helpers (Python `str.split(sep, 1)` and `str.rstrip`) -/

/-- Splits a character list at every occurrence of `c`; total analogue of
Python `s.split(c)` for a one-character separator.  On the empty string it
yields `[""]`, exactly like Python. -/
def splitCharAux (c : Char) : List Char → List (List Char)
  | [] => [[]]
  | ch :: rest =>
    match splitCharAux c rest with
    | [] => [[]]
    | cur :: out => if ch = c then [] :: cur :: out else (ch :: cur) :: out

def splitChar (c : Char) (s : String) : List String :=
  (splitCharAux c s.data).map (fun l => String.mk l)

/-- Rejoins parts with the separator character (inverse of `splitChar` on the
tail kept by a bounded split). -/
def joinWithChar (c : Char) : List String → String
  | [] => ""
  | [x] => x
  | x :: rest => x ++ String.mk [c] ++ joinWithChar c rest

/-- Python `s.split(c, 1)`: at most one split, at the first occurrence. -/
def splitMax1 (c : Char) (s : String) : List String :=
  match splitChar c s with
  | [] => [s]
  | [x] => [x]
  | x :: rest => [x, joinWithChar c rest]

/-- Python `s.rstrip(c)` for a one-character strip set. -/
def rstripChar (c : Char) (s : String) : String :=
  String.mk ((s.data.reverse.dropWhile (fun ch => ch = c)).reverse)

/-- Folds a tag list into a last-write-wins lookup, as the source's
`tags[key] = value` dictionary build over all pages does. -/
def tagsToMap (tags : List (String × String)) : String → Option String :=
  tags.foldl (fun m kv => fun k => if k = kv.1 then some kv.2 else m k)
    (fun _ => none)

/-! ## HostnameConfig -/

structure HostnameConfig where
  asg_name : String
  hostname : String
  zone_id : String
  mode : String
deriving DecidableEq

def HostnameConfig.is_single (c : HostnameConfig) : Bool :=
  c.mode == MODE_SINGLE

/-- `f-string` of the source: hostname with trailing dots stripped and exactly
one appended. -/
def HostnameConfig.canonical_hostname (c : HostnameConfig) : String :=
  rstripChar '.' c.hostname ++ "."

/-- The raw value of the hostname tag for a group, defaulting to the empty
string when absent (`tags.get(HOSTNAME_TAG_NAME, "")`). -/
def rawHostnameTag (env : Env) (asg_name : String) : String :=
  ((tagsToMap (env.asgTags asg_name)) HOSTNAME_TAG_NAME).getD ""

/-- The mode tag value for a group, defaulting to multi
(`tags.get(MODE_TAG_NAME, MODE_DEFAULT)`). -/
def modeOf (env : Env) (asg_name : String) : String :=
  ((tagsToMap (env.asgTags asg_name)) MODE_TAG_NAME).getD MODE_DEFAULT

/-- `HostnameConfig.from_asg_name`: reads the group's hostname and mode tags,
splits the hostname tag value at the first separator with
`split("@", 1)`, and validates.  Returns the resolved config (or `none`) and
the warning/error log entries it emits. -/
def from_asg_name (env : Env) (asg_name : String) :
    Option HostnameConfig × List LogEntry :=
  if splitMax1 '@' (rawHostnameTag env asg_name) = [] then
    (none, [⟨LogLevel.warning, logHostnameTagMissing⟩])
  else if (splitMax1 '@' (rawHostnameTag env asg_name)).length ≠ 2 then
    (none, [⟨LogLevel.error, logHostnameTagMalformed⟩])
  else if modeOf env asg_name ∈ MODES_VALID then
    (some ⟨asg_name,
      (splitMax1 '@' (rawHostnameTag env asg_name)).getD 0 "",
      (splitMax1 '@' (rawHostnameTag env asg_name)).getD 1 "",
      modeOf env asg_name⟩, [])
  else
    (none, [⟨LogLevel.error, logUnknownMode⟩])

/-! ## Address collection -/

/-- Tests whether an instance carries the exclusion marker
(`asg:terminating = true`), as the `any(...)` over its tags does. -/
def hasTerminatingTag (inst : Ec2Instance) : Bool :=
  inst.tags.any (fun t => t.1 == TERMINATING_TAG_NAME && t.2 == TERMINATING_TAG_VALUE)

/-- Adds an instance's IPv4/IPv6 addresses (when present) to the accumulated
pair of sets; the shared body of both fetch loops. -/
def collectAddresses (acc : Finset String × Finset String) (inst : Ec2Instance) :
    Finset String × Finset String :=
  (match inst.ipv4 with
   | some v => insert v acc.1
   | none => acc.1,
   match inst.ipv6 with
   | some v => insert v acc.2
   | none => acc.2)

/-- Loop body of `fetch_instance_ips`: skip instances in `ignore_ids`, skip
instances carrying the exclusion marker, collect the rest. -/
def collectGroupInstance (ignore_ids : List String)
    (acc : Finset String × Finset String) (inst : Ec2Instance) :
    Finset String × Finset String :=
  if inst.instanceId ∈ ignore_ids then acc
  else if hasTerminatingTag inst then acc
  else collectAddresses acc inst

/-- `fetch_instance_ips`: addresses of the group's running instances
(the oracle list is the flattened pages of the filtered `describe_instances`
query), with explicit and marker-based exclusions applied. -/
def fetch_instance_ips (env : Env) (asg_name : String) (ignore_ids : List String) :
    Finset String × Finset String :=
  (env.asgInstances asg_name).foldl (collectGroupInstance ignore_ids) (∅, ∅)

/-- `fetch_ip_from_ec2`: addresses of one instance looked up by id, no
filtering. -/
def fetch_ip_from_ec2 (env : Env) (instance_id : String) :
    Finset String × Finset String :=
  (env.instById instance_id).foldl collectAddresses (∅, ∅)

/-! ## Route53 read -/

/-- `fetch_values_from_route53`: lists record sets starting at the hostname
(the oracle returns what the `MaxItems="1"` query yields) and keeps only
values of sets whose name equals the canonical hostname and whose type equals
the requested type. -/
def fetch_values_from_route53 (env : Env) (config : HostnameConfig)
    (record_type : String) : Finset String :=
  (env.listRecords config.zone_id config.hostname record_type).foldl
    (fun acc rr =>
      if rr.name ≠ config.canonical_hostname then acc
      else if rr.rtype ≠ record_type then acc
      else rr.values.foldl (fun a v => insert v a) acc)
    ∅

/-! ## The reconciler -/

/-- The pure decision core of `change_records` (lines 319-340): no-op when the
sets agree, otherwise an UPSERT of the full new set when it is non-empty,
otherwise a DELETE of the old set. -/
def change_records (old new : Finset String) : Option (String × Finset String) :=
  if old = new then none
  else if new ≠ ∅ then some ("UPSERT", new)
  else some ("DELETE", old)

/-- Runs the decision of `change_records` against the environment: a decided
mutation becomes one `update_record` call (recorded in the trace), whose
`ClientError`, if any, propagates. -/
def run_change_records (env : Env) (config : HostnameConfig)
    (old new : Finset String) (record_type : String) (eff : Effects) :
    Effects × Option PyErr :=
  match change_records old new with
  | none => (eff, none)
  | some av =>
    let m : Mutation := ⟨config.zone_id, config.hostname, record_type, av.1, av.2⟩
    ({ eff with mutations := eff.mutations ++ [m] },
     (env.mutationResult m).map PyErr.clientError)

/-- Python exception propagation: the continuation runs only when the previous
statement did not raise. -/
def pipe (r : Effects × Option PyErr) (f : Effects → Effects × Option PyErr) :
    Effects × Option PyErr :=
  match r with
  | (e, none) => f e
  | (e, some err) => (e, some err)

/-- Sequential execution with Python exception semantics: the first step that
raises stops the remaining steps, keeping the effects made so far. -/
def runSeq {α : Type} (f : α → Effects → Effects × Option PyErr) :
    List α → Effects → Effects × Option PyErr
  | [], eff => (eff, none)
  | x :: xs, eff => pipe (f x eff) (runSeq f xs)

/-- The `try/except botocore.exceptions.ClientError` of the single-mode
terminate loop: a `ClientError` whose code is `InvalidChangeBatch` is
swallowed, a `ClientError` with any other code is re-raised, and any other
exception is not caught at all. -/
def swallow_conflict (r : Effects × Option PyErr) : Effects × Option PyErr :=
  match r with
  | (e, some (PyErr.clientError code)) =>
    if code ≠ "InvalidChangeBatch" then (e, some (PyErr.clientError code))
    else (e, none)
  | r => r

/-! ## Single and multi mode orchestration (`process_message`) -/

/-- Body of the `for old, new, record_type in ...` loop of the single-mode
launch path: reconcile one family only when its new set is non-empty. -/
def launch_family_step (env : Env) (config : HostnameConfig)
    (t : Finset String × Finset String × String) (e : Effects) :
    Effects × Option PyErr :=
  if t.2.1 ≠ (∅ : Finset String) then
    run_change_records env config t.1 t.2.1 t.2.2 e
  else (e, none)

/-- Single-mode launch body (lines 350-360): fetch the launching instance's
own addresses and, for each family whose new set is non-empty, run
`change_records` against the old directory values.  Errors are unguarded. -/
def single_launch_one (env : Env) (config : HostnameConfig)
    (old_ipv4s old_ipv6s : Finset String) (instance_id : String) (eff : Effects) :
    Effects × Option PyErr :=
  runSeq (launch_family_step env config)
    [(old_ipv4s, (fetch_ip_from_ec2 env instance_id).1, "A"),
     (old_ipv6s, (fetch_ip_from_ec2 env instance_id).2, "AAAA")] eff

/-- Body of the `for old, record_type in ...` loop of the single-mode
terminate path: delete one family's values (only when the instance held some),
with the try/except conflict swallow around the call. -/
def terminate_family_step (env : Env) (config : HostnameConfig)
    (t : Finset String × String) (e : Effects) : Effects × Option PyErr :=
  if t.1 ≠ (∅ : Finset String) then
    swallow_conflict (run_change_records env config t.1 ∅ t.2 e)
  else (e, none)

/-- Single-mode terminate body (lines 366-382): fetch the terminating
instance's own addresses and, for each family that instance held, delete
exactly those values; a `ClientError` whose code is `InvalidChangeBatch` is
swallowed, any other code re-raised. -/
def single_terminate_one (env : Env) (config : HostnameConfig)
    (instance_id : String) (eff : Effects) : Effects × Option PyErr :=
  runSeq (terminate_family_step env config)
    [((fetch_ip_from_ec2 env instance_id).1, "A"),
     ((fetch_ip_from_ec2 env instance_id).2, "AAAA")] eff

/-- The single-mode branch: the launch loop, then (when no error propagated)
the terminate loop. -/
def single_branch (env : Env) (config : HostnameConfig)
    (launch_ids terminate_ids : List String)
    (old_ipv4s old_ipv6s : Finset String) (eff : Effects) :
    Effects × Option PyErr :=
  pipe (runSeq (single_launch_one env config old_ipv4s old_ipv6s) launch_ids eff)
    (runSeq (single_terminate_one env config) terminate_ids)

/-- The multi-mode branch (lines 386-391): recompute the group membership
excluding terminating ids, then reconcile both families.  Errors are
unguarded. -/
def multi_branch (env : Env) (config : HostnameConfig) (asg_name : String)
    (terminate_ids : List String) (old_ipv4s old_ipv6s : Finset String)
    (eff : Effects) : Effects × Option PyErr :=
  pipe (run_change_records env config old_ipv4s
      (fetch_instance_ips env asg_name terminate_ids).1 "A" eff)
    (run_change_records env config old_ipv6s
      (fetch_instance_ips env asg_name terminate_ids).2 "AAAA")

/-- The tail of `process_message` after classification: tag the terminating
instances, resolve the hostname config (stopping silently on `none`), read the
old record values of both families, and dispatch on mode. -/
def process_transition (env : Env) (message : Message)
    (launch_ids terminate_ids : List String) (eff : Effects) :
    Effects × Option PyErr :=
  match message.get? ASG_KEY with
  | none => ({ eff with tagged := eff.tagged ++ terminate_ids },
             some (PyErr.keyError ASG_KEY))
  | some asg_name =>
    match (from_asg_name env asg_name).1 with
    | none => ({ eff with tagged := eff.tagged ++ terminate_ids }, none)
    | some config =>
      if config.is_single then
        single_branch env config launch_ids terminate_ids
          (fetch_values_from_route53 env config "A")
          (fetch_values_from_route53 env config "AAAA")
          { eff with
            tagged := eff.tagged ++ terminate_ids,
            reads := eff.reads ++
              [(config.zone_id, config.hostname, "A"),
               (config.zone_id, config.hostname, "AAAA")] }
      else
        multi_branch env config asg_name terminate_ids
          (fetch_values_from_route53 env config "A")
          (fetch_values_from_route53 env config "AAAA")
          { eff with
            tagged := eff.tagged ++ terminate_ids,
            reads := eff.reads ++
              [(config.zone_id, config.hostname, "A"),
               (config.zone_id, config.hostname, "AAAA")] }

/-- `process_message` (lines 282-391): classify the lifecycle transition
(reading `message["Event"]` — a possible `KeyError` — when the transition key
is absent, and `message["EC2InstanceId"]` when it is a known transition), then
run `process_transition`.  Unknown transitions log an error and stop. -/
def process_message (env : Env) (message : Message) (eff : Effects) :
    Effects × Option PyErr :=
  match message.get? "LifecycleTransition" with
  | none =>
    match message.get? "Event" with
    | none => (eff, some (PyErr.keyError "Event"))
    | some _ => (eff, none)
  | some transition =>
    if transition = TRANSITION_LAUNCHING then
      match message.get? "EC2InstanceId" with
      | none => (eff, some (PyErr.keyError "EC2InstanceId"))
      | some iid => process_transition env message [iid] [] eff
    else if transition = TRANSITION_TERMINATING ∨ transition = TRANSITION_LAUNCH_ERROR then
      match message.get? "EC2InstanceId" with
      | none => (eff, some (PyErr.keyError "EC2InstanceId"))
      | some iid => process_transition env message [] [iid] eff
    else
      (eff, none)

/-! ## lambda_handler -/

/-- The completion block of `lambda_handler` (lines 409-425): guarded only by
the presence of `LifecycleHookName` and `AutoScalingGroupName`; inside the
guard, `message["EC2InstanceId"]` and `message["LifecycleActionToken"]` can
raise `KeyError`, which the surrounding `except` (matching only
`botocore.exceptions.ClientError`) does not catch; a `ClientError` from
`complete_lifecycle_action` itself is logged and swallowed. -/
def completion_step (env : Env) (message : Message) (eff : Effects) :
    Effects × Option PyErr :=
  match message.get? LIFECYCLE_KEY, message.get? ASG_KEY with
  | some hook, some asg =>
    match message.get? "EC2InstanceId" with
    | none => (eff, some (PyErr.keyError "EC2InstanceId"))
    | some iid =>
      match message.get? "LifecycleActionToken" with
      | none => (eff, some (PyErr.keyError "LifecycleActionToken"))
      | some tok =>
        let _callResult := env.completionResult hook asg iid tok
        ({ eff with completions := eff.completions ++ [(hook, asg, iid, tok)] },
         none)
  | _, _ => (eff, none)

/-- One record of the batch loop: `process_record` (deserialization is out of
scope; a record is its parsed message) followed by the completion block. -/
def handle_record (env : Env) (message : Message) (eff : Effects) :
    Effects × Option PyErr :=
  pipe (process_message env message eff) (completion_step env message)

/-- `lambda_handler` (lines 401-426): the records of the batch, strictly in
order; an uncaught exception from one record propagates out of the loop. -/
def lambda_handler (env : Env) (records : List Message) :
    Effects × Option PyErr :=
  runSeq (handle_record env) records Effects.empty

/-! ## Directory semantics -/

/-- Modelled from the spec: the zone backend's record-set mutation semantics
(MutateRecordSet in the external-interface section), which are not part of
this repository's sources.  An Upsert replaces the live record set with the
submitted values; a Delete removes the record set only when the submitted
values match the live set exactly (otherwise the backend rejects the batch and
the live set is unchanged). -/
def applyMutation (live : Finset String) (m : Mutation) : Finset String :=
  if m.action = "UPSERT" then m.values
  else if live = m.values then ∅
  else live

/-! ## Concrete environments and messages used to evaluate the model -/

/-- An inert environment: no tags, no instances, no records, every call
succeeds. -/
def envTriv : Env :=
  ⟨fun _ => [], fun _ => [], fun _ => [], fun _ _ _ => [],
   fun _ => none, fun _ _ _ _ => none⟩

/-- Environment whose hostname tag value holds two separators. -/
def envDoubleSep : Env :=
  { envTriv with asgTags := fun _ => [(HOSTNAME_TAG_NAME, "a@b@c")] }

/-- Multi-mode group with one running instance; every Route53 mutation fails
with a non-conflict error code. -/
def envThrottle : Env :=
  { envTriv with
    asgTags := fun _ => [(HOSTNAME_TAG_NAME, "app@Z1")],
    asgInstances := fun _ => [⟨"i-1", [], some "10.0.0.1", none⟩],
    mutationResult := fun _ => some "Throttling" }

/-- Two multi-mode groups in distinct zones; mutations in the first group's
zone fail with a non-conflict error, mutations in the second succeed. -/
def envTwoGroups : Env :=
  { envTriv with
    asgTags := fun a =>
      if a = "g1" then [(HOSTNAME_TAG_NAME, "app1@Z1")]
      else [(HOSTNAME_TAG_NAME, "app2@Z2")],
    asgInstances := fun a =>
      if a = "g1" then [⟨"i-1", [], some "10.1.1.1", none⟩]
      else [⟨"i-2", [], some "10.2.2.2", none⟩],
    mutationResult := fun m => if m.zone_id = "Z1" then some "Throttling" else none }

/-- Multi-mode group whose membership has become empty while an A record with
one value is still live; every DELETE is rejected as an invalid change
batch. -/
def envMultiConflict : Env :=
  { envTriv with
    asgTags := fun _ => [(HOSTNAME_TAG_NAME, "app@Z1")],
    listRecords := fun _ _ t =>
      if t = "A" then [⟨"app.", "A", ["10.0.0.1"]⟩] else [],
    mutationResult := fun m =>
      if m.action = "DELETE" then some "InvalidChangeBatch" else none }

/-- A terminating instance that still holds an IPv4 address; every mutation is
rejected as an invalid change batch. -/
def envSingleConflict : Env :=
  { envTriv with
    instById := fun _ => [⟨"i-9", [], some "10.0.0.9", none⟩],
    mutationResult := fun _ => some "InvalidChangeBatch" }

/-- Multi-mode group whose membership grew to two instances; all calls
succeed. -/
def envMultiGrow : Env :=
  { envTriv with
    asgInstances := fun _ =>
      [⟨"i-1", [], some "10.0.0.1", none⟩, ⟨"i-2", [], some "10.0.0.2", none⟩] }

/-- Single-mode group; the launching instance has only an IPv4 address while
an AAAA record from a previous holder is still live. -/
def envSingleLaunch : Env :=
  { envTriv with
    asgTags := fun _ =>
      [(HOSTNAME_TAG_NAME, "app@Z1"), (MODE_TAG_NAME, MODE_SINGLE)],
    instById := fun _ => [⟨"i-1", [], some "10.0.0.5", none⟩],
    listRecords := fun _ _ t =>
      if t = "AAAA" then [⟨"app.", "AAAA", ["fe80::1"]⟩] else [] }

/-- A hostname config of the concrete test zone. -/
def cfgApp : HostnameConfig := ⟨"grp", "app", "Z1", MODE_MULTI⟩

def msgLaunchGrp : Message :=
  [("LifecycleTransition", TRANSITION_LAUNCHING), ("EC2InstanceId", "i-1"),
   (ASG_KEY, "grp")]

def msgLaunchFull : Message :=
  [("LifecycleTransition", TRANSITION_LAUNCHING), ("EC2InstanceId", "i-1"),
   (ASG_KEY, "grp"), (LIFECYCLE_KEY, "hook"), ("LifecycleActionToken", "tok")]

def msgLaunchG1 : Message :=
  [("LifecycleTransition", TRANSITION_LAUNCHING), ("EC2InstanceId", "i-1"),
   (ASG_KEY, "g1")]

def msgLaunchG2 : Message :=
  [("LifecycleTransition", TRANSITION_LAUNCHING), ("EC2InstanceId", "i-2"),
   (ASG_KEY, "g2")]

def msgTerminateGrp : Message :=
  [("LifecycleTransition", TRANSITION_TERMINATING), ("EC2InstanceId", "i-9"),
   (ASG_KEY, "grp")]

/-- A message with the two completion-guard keys and an unknown transition
kind, but no `EC2InstanceId`. -/
def msgNoInstanceId : Message :=
  [(LIFECYCLE_KEY, "hook"), (ASG_KEY, "grp"),
   ("LifecycleTransition", "autoscaling:TEST")]

/-- Same shape with all four completion fields present. -/
def msgAllFields : Message :=
  [(LIFECYCLE_KEY, "hook"), (ASG_KEY, "grp"),
   ("LifecycleTransition", "autoscaling:TEST"),
   ("EC2InstanceId", "i-1"), ("LifecycleActionToken", "tok")]

/-! ## Helper lemmas -/

lemma change_records_cases (old new : Finset String) :
    (old = new ∧ change_records old new = none) ∨
    (old ≠ new ∧ new ≠ ∅ ∧ change_records old new = some ("UPSERT", new)) ∨
    (old ≠ new ∧ new = ∅ ∧ change_records old new = some ("DELETE", old)) := by
  unfold change_records
  by_cases h1 : old = new
  · exact Or.inl ⟨h1, by rw [if_pos h1]⟩
  · by_cases h2 : new = (∅ : Finset String)
    · exact Or.inr (Or.inr ⟨h1, h2, by rw [if_neg h1, if_neg (not_not_intro h2)]⟩)
    · exact Or.inr (Or.inl ⟨h1, h2, by rw [if_neg h1, if_pos h2]⟩)

lemma run_change_records_of_none (env : Env) (config : HostnameConfig)
    (old new : Finset String) (rt : String) (eff : Effects)
    (h : change_records old new = none) :
    run_change_records env config old new rt eff = (eff, none) := by
  unfold run_change_records
  rw [h]

lemma run_change_records_of_some (env : Env) (config : HostnameConfig)
    (old new : Finset String) (rt : String) (eff : Effects)
    (a : String) (v : Finset String)
    (h : change_records old new = some (a, v)) :
    run_change_records env config old new rt eff =
      ({ eff with mutations := eff.mutations ++
          [⟨config.zone_id, config.hostname, rt, a, v⟩] },
       (env.mutationResult ⟨config.zone_id, config.hostname, rt, a, v⟩).map
         PyErr.clientError) := by
  unfold run_change_records
  rw [h]

lemma pipe_ok (e : Effects) (f : Effects → Effects × Option PyErr) :
    pipe (e, none) f = f e := rfl

lemma pipe_err (e : Effects) (err : PyErr) (f : Effects → Effects × Option PyErr) :
    pipe (e, some err) f = (e, some err) := rfl

lemma runSeq_nil {α : Type} (f : α → Effects → Effects × Option PyErr)
    (eff : Effects) : runSeq f [] eff = (eff, none) := rfl

lemma runSeq_cons {α : Type} (f : α → Effects → Effects × Option PyErr)
    (x : α) (xs : List α) (eff : Effects) :
    runSeq f (x :: xs) eff = pipe (f x eff) (runSeq f xs) := rfl

lemma swallow_conflict_ok (e : Effects) : swallow_conflict (e, none) = (e, none) := rfl

lemma swallow_conflict_client (e : Effects) (code : String) :
    swallow_conflict (e, some (PyErr.clientError code)) =
      if code ≠ "InvalidChangeBatch" then (e, some (PyErr.clientError code))
      else (e, none) := rfl

lemma effects_append_nil (eff : Effects) :
    { eff with mutations := eff.mutations ++ [] } = eff := by
  simp

/-- One family's reconciliation step, summarised: the mutations it appends
(at most one), applied to the old set under the exact-set directory semantics,
land exactly on the new set; an appended UPSERT always carries the full new
set. -/
lemma run_change_records_spec (env : Env) (config : HostnameConfig)
    (old new : Finset String) (rt : String) (eff : Effects) :
    ∃ ms err, run_change_records env config old new rt eff =
        ({ eff with mutations := eff.mutations ++ ms }, err) ∧
      ms.foldl applyMutation old = new ∧
      (∀ m ∈ ms, m.record_type = rt ∧ m.zone_id = config.zone_id ∧
        m.name = config.hostname ∧ (m.action = "UPSERT" → m.values = new)) := by
  rcases change_records_cases old new with ⟨he, hc⟩ | ⟨hne, hnemp, hc⟩ | ⟨hne, hemp, hc⟩
  · refine ⟨[], none, ?_, by simpa using he, by simp⟩
    rw [run_change_records_of_none env config old new rt eff hc, effects_append_nil]
  · refine ⟨[⟨config.zone_id, config.hostname, rt, "UPSERT", new⟩], _,
      run_change_records_of_some env config old new rt eff _ _ hc, ?_, ?_⟩
    · show applyMutation old ⟨config.zone_id, config.hostname, rt, "UPSERT", new⟩ = new
      unfold applyMutation
      rw [if_pos rfl]
    · intro m hm
      rw [List.mem_singleton] at hm
      subst hm
      exact ⟨rfl, rfl, rfl, fun _ => rfl⟩
  · refine ⟨[⟨config.zone_id, config.hostname, rt, "DELETE", old⟩], _,
      run_change_records_of_some env config old new rt eff _ _ hc, ?_, ?_⟩
    · show (if ("DELETE" : String) = "UPSERT" then old
          else if old = old then (∅ : Finset String) else old) = new
      rw [if_neg (by decide : ¬ ("DELETE" : String) = "UPSERT"), if_pos rfl, hemp]
    · intro m hm
      rw [List.mem_singleton] at hm
      subst hm
      exact ⟨rfl, rfl, rfl,
        fun hup => absurd hup (by decide : ¬ ("DELETE" : String) = "UPSERT")⟩

/-! ## Claim theorems -/

/-- C1: the reconciler's pure decision function `change_records` performs no
mutation when `old = new`; issues exactly one UPSERT carrying the full new set
when the sets differ and the new set is non-empty; and issues exactly one
DELETE of the old set when the new set is empty and the old set is not.  The
`run_change_records` conjuncts witness the mutation count on the effect
trace. -/
theorem change_records_decision (env : Env) (config : HostnameConfig)
    (rt : String) (old new : Finset String) (eff : Effects) :
    (old = new → change_records old new = none ∧
      run_change_records env config old new rt eff = (eff, none)) ∧
    (old ≠ new → new ≠ ∅ → change_records old new = some ("UPSERT", new) ∧
      (run_change_records env config old new rt eff).1.mutations =
        eff.mutations ++ [⟨config.zone_id, config.hostname, rt, "UPSERT", new⟩]) ∧
    (new = ∅ → old ≠ ∅ → change_records old new = some ("DELETE", old) ∧
      (run_change_records env config old new rt eff).1.mutations =
        eff.mutations ++ [⟨config.zone_id, config.hostname, rt, "DELETE", old⟩]) := by
  refine ⟨?_, ?_, ?_⟩
  · intro he
    have hc : change_records old new = none := by
      unfold change_records
      rw [if_pos he]
    exact ⟨hc, run_change_records_of_none env config old new rt eff hc⟩
  · intro hne hnemp
    have hc : change_records old new = some ("UPSERT", new) := by
      unfold change_records
      rw [if_neg hne, if_pos hnemp]
    exact ⟨hc, by rw [run_change_records_of_some env config old new rt eff _ _ hc]⟩
  · intro hemp hone
    have hne : old ≠ new := by
      rw [hemp]
      exact hone
    have hc : change_records old new = some ("DELETE", old) := by
      unfold change_records
      rw [if_neg hne, if_neg (not_not_intro hemp)]
    exact ⟨hc, by rw [run_change_records_of_some env config old new rt eff _ _ hc]⟩

/-- Witness for C1: the three decision branches at concrete address sets. -/
theorem change_records_decision_witness :
    (change_records {"10.0.0.1"} {"10.0.0.1"} = none ∧
      run_change_records envTriv cfgApp {"10.0.0.1"} {"10.0.0.1"} "A" Effects.empty
        = (Effects.empty, none)) ∧
    (change_records {"10.0.0.1"} {"10.0.0.1", "10.0.0.2"}
        = some ("UPSERT", {"10.0.0.1", "10.0.0.2"}) ∧
      (run_change_records envTriv cfgApp {"10.0.0.1"} {"10.0.0.1", "10.0.0.2"} "A"
          Effects.empty).1.mutations =
        [] ++ [⟨"Z1", "app", "A", "UPSERT", {"10.0.0.1", "10.0.0.2"}⟩]) ∧
    (change_records {"10.0.0.1"} ∅ = some ("DELETE", {"10.0.0.1"}) ∧
      (run_change_records envTriv cfgApp {"10.0.0.1"} (∅ : Finset String) "A"
          Effects.empty).1.mutations =
        [] ++ [⟨"Z1", "app", "A", "DELETE", {"10.0.0.1"}⟩]) :=
  ⟨(change_records_decision envTriv cfgApp "A" {"10.0.0.1"} {"10.0.0.1"}
      Effects.empty).1 rfl,
   (change_records_decision envTriv cfgApp "A" {"10.0.0.1"} {"10.0.0.1", "10.0.0.2"}
      Effects.empty).2.1 (by decide) (by decide),
   (change_records_decision envTriv cfgApp "A" {"10.0.0.1"} ∅
      Effects.empty).2.2 rfl (by decide)⟩

/-- C2: in Multi mode, one reconciliation pass drives the directory to the
freshly computed membership exactly.  For any old directory sets and any
computed membership, the pass that finishes without a propagated error appends
mutations which, applied to the old set under the exact-set directory
semantics, yield exactly the computed membership per family (so an empty
membership ends with the record set deleted); every UPSERT submitted carries
the full membership set, never a merge. -/
theorem multi_mode_self_healing (env : Env) (config : HostnameConfig)
    (asg_name : String) (terminate_ids : List String)
    (old_ipv4s old_ipv6s : Finset String) (eff e : Effects)
    (h : multi_branch env config asg_name terminate_ids old_ipv4s old_ipv6s eff
        = (e, none)) :
    ∃ ms, e.mutations = eff.mutations ++ ms ∧
      (ms.filter (fun m => m.record_type == "A")).foldl applyMutation old_ipv4s
        = (fetch_instance_ips env asg_name terminate_ids).1 ∧
      (ms.filter (fun m => m.record_type == "AAAA")).foldl applyMutation old_ipv6s
        = (fetch_instance_ips env asg_name terminate_ids).2 ∧
      (∀ m ∈ ms, m.zone_id = config.zone_id ∧ m.name = config.hostname) ∧
      (∀ m ∈ ms, m.action = "UPSERT" →
        (m.record_type = "A" →
          m.values = (fetch_instance_ips env asg_name terminate_ids).1) ∧
        (m.record_type = "AAAA" →
          m.values = (fetch_instance_ips env asg_name terminate_ids).2)) := by
  obtain ⟨ms4, err4, h4eq, h4fold, h4props⟩ :=
    run_change_records_spec env config old_ipv4s
      (fetch_instance_ips env asg_name terminate_ids).1 "A" eff
  unfold multi_branch at h
  rw [h4eq] at h
  rcases err4 with _ | perr4
  · rw [pipe_ok] at h
    obtain ⟨ms6, err6, h6eq, h6fold, h6props⟩ :=
      run_change_records_spec env config old_ipv6s
        (fetch_instance_ips env asg_name terminate_ids).2 "AAAA"
        { eff with mutations := eff.mutations ++ ms4 }
    rw [h6eq] at h
    rcases err6 with _ | perr6
    · injection h with hE hErr
      refine ⟨ms4 ++ ms6, ?_, ?_, ?_, ?_, ?_⟩
      · rw [← hE, ← List.append_assoc]
      · have hf4 : ms4.filter (fun m => m.record_type == "A") = ms4 :=
          List.filter_eq_self.mpr (fun m hm => by
            rw [(h4props m hm).1]
            decide)
        have hf6 : ms6.filter (fun m => m.record_type == "A") = [] :=
          List.filter_eq_nil_iff.mpr (fun m hm => by
            rw [(h6props m hm).1]
            decide)
        rw [List.filter_append, hf4, hf6, List.append_nil]
        exact h4fold
      · have hf4 : ms4.filter (fun m => m.record_type == "AAAA") = [] :=
          List.filter_eq_nil_iff.mpr (fun m hm => by
            rw [(h4props m hm).1]
            decide)
        have hf6 : ms6.filter (fun m => m.record_type == "AAAA") = ms6 :=
          List.filter_eq_self.mpr (fun m hm => by
            rw [(h6props m hm).1]
            decide)
        rw [List.filter_append, hf4, hf6, List.nil_append]
        exact h6fold
      · intro m hm
        rcases List.mem_append.mp hm with hm4 | hm6
        · exact ⟨(h4props m hm4).2.1, (h4props m hm4).2.2.1⟩
        · exact ⟨(h6props m hm6).2.1, (h6props m hm6).2.2.1⟩
      · intro m hm hup
        rcases List.mem_append.mp hm with hm4 | hm6
        · refine ⟨fun _ => (h4props m hm4).2.2.2 hup, fun hAAAA => ?_⟩
          have : ("A" : String) = "AAAA" := by
            rw [← (h4props m hm4).1, hAAAA]
          exact absurd this (by decide)
        · refine ⟨fun hA => ?_, fun _ => (h6props m hm6).2.2.2 hup⟩
          have : ("AAAA" : String) = "A" := by
            rw [← (h6props m hm6).1, hA]
          exact absurd this (by decide)
    · injection h with hE hErr
      exact Option.noConfusion hErr
  · rw [pipe_err] at h
    injection h with hE hErr
    exact Option.noConfusion hErr

/-- Witness for C2: a Multi pass over a one-member old set and a freshly
computed two-member membership ends with the A record set equal to the
membership. -/
theorem multi_mode_self_healing_witness :
    (((multi_branch envMultiGrow cfgApp "grp" [] {"10.0.0.1"} ∅
          Effects.empty).1.mutations.filter
        (fun m => m.record_type == "A")).foldl applyMutation {"10.0.0.1"})
      = (fetch_instance_ips envMultiGrow "grp" []).1 := by
  obtain ⟨ms, hms, hA, hAAAA, hzones, hup⟩ :=
    multi_mode_self_healing envMultiGrow cfgApp "grp" [] {"10.0.0.1"} ∅
      Effects.empty
      (multi_branch envMultiGrow cfgApp "grp" [] {"10.0.0.1"} ∅ Effects.empty).1
      (by decide)
  rw [hms]
  simpa [Effects.empty] using hA

lemma change_records_to_empty (old : Finset String) (ho : old ≠ (∅ : Finset String)) :
    change_records old ∅ = some ("DELETE", old) := by
  unfold change_records
  rw [if_neg ho, if_neg (not_not_intro rfl)]

lemma terminate_family_step_eq (env : Env) (config : HostnameConfig)
    (old : Finset String) (rt : String) (e : Effects) :
    terminate_family_step env config (old, rt) e =
      if old ≠ (∅ : Finset String) then
        swallow_conflict (run_change_records env config old ∅ rt e)
      else (e, none) := rfl

lemma launch_family_step_eq (env : Env) (config : HostnameConfig)
    (old new : Finset String) (rt : String) (e : Effects) :
    launch_family_step env config (old, new, rt) e =
      if new ≠ (∅ : Finset String) then run_change_records env config old new rt e
      else (e, none) := rfl

lemma map_clientError_some (code : String) :
    Option.map PyErr.clientError (some code) = some (PyErr.clientError code) := rfl

/-- Under a backend whose DELETE failures are all conflicts, one family step of
the single-mode terminate loop never raises. -/
lemma terminate_step_ok (env : Env) (config : HostnameConfig)
    (old : Finset String) (rt : String) (eff : Effects)
    (hok : ∀ m : Mutation, m.action = "DELETE" →
      env.mutationResult m = none ∨ env.mutationResult m = some "InvalidChangeBatch") :
    ∃ e2, terminate_family_step env config (old, rt) eff = (e2, none) := by
  rw [terminate_family_step_eq]
  by_cases ho : old = (∅ : Finset String)
  · rw [if_neg (not_not_intro ho)]
    exact ⟨eff, rfl⟩
  · rw [if_pos ho,
      run_change_records_of_some env config old ∅ rt eff _ _
        (change_records_to_empty old ho)]
    rcases hok ⟨config.zone_id, config.hostname, rt, "DELETE", old⟩ rfl with hmr | hmr
    · rw [hmr]
      exact ⟨_, rfl⟩
    · rw [hmr, map_clientError_some, swallow_conflict_client,
        if_neg (not_not_intro rfl)]
      exact ⟨_, rfl⟩

/-- C3 (amended): the InvalidChangeBatch swallow guards only the single-mode
terminate path.  There, a conflict on a family delete is swallowed (the pass
finishes without raising) and any other `ClientError` code propagates.  A
delete issued by the Multi-mode branch has no guard: a conflict rejection
propagates out of the reconciliation like any other backend error. -/
theorem delete_conflict_scope (env : Env) (config : HostnameConfig)
    (instance_id asg_name : String) (terminate_ids : List String)
    (old_ipv4s old_ipv6s : Finset String) (eff : Effects) :
    ((∀ m : Mutation, m.action = "DELETE" →
        env.mutationResult m = none ∨
        env.mutationResult m = some "InvalidChangeBatch") →
      (single_terminate_one env config instance_id eff).2 = none) ∧
    (∀ code, (fetch_ip_from_ec2 env instance_id).1 ≠ (∅ : Finset String) →
      env.mutationResult ⟨config.zone_id, config.hostname, "A", "DELETE",
          (fetch_ip_from_ec2 env instance_id).1⟩ = some code →
      code ≠ "InvalidChangeBatch" →
      (single_terminate_one env config instance_id eff).2
        = some (PyErr.clientError code)) ∧
    ((fetch_instance_ips env asg_name terminate_ids).1 = (∅ : Finset String) →
      old_ipv4s ≠ (∅ : Finset String) →
      env.mutationResult ⟨config.zone_id, config.hostname, "A", "DELETE", old_ipv4s⟩
        = some "InvalidChangeBatch" →
      (multi_branch env config asg_name terminate_ids old_ipv4s old_ipv6s eff).2
        = some (PyErr.clientError "InvalidChangeBatch")) := by
  refine ⟨?_, ?_, ?_⟩
  · intro hok
    unfold single_terminate_one
    obtain ⟨e1, he1⟩ :=
      terminate_step_ok env config (fetch_ip_from_ec2 env instance_id).1 "A" eff hok
    obtain ⟨e2, he2⟩ :=
      terminate_step_ok env config (fetch_ip_from_ec2 env instance_id).2 "AAAA" e1 hok
    rw [runSeq_cons, he1, pipe_ok, runSeq_cons, he2, pipe_ok, runSeq_nil]
  · intro code hne hmr hcode
    unfold single_terminate_one
    rw [runSeq_cons, terminate_family_step_eq, if_pos hne,
      run_change_records_of_some env config _ ∅ "A" eff _ _
        (change_records_to_empty _ hne),
      hmr, map_clientError_some, swallow_conflict_client, if_pos hcode, pipe_err]
  · intro hc4 ho hmr
    unfold multi_branch
    have hc : change_records old_ipv4s
        (fetch_instance_ips env asg_name terminate_ids).1
        = some ("DELETE", old_ipv4s) := by
      rw [hc4]
      exact change_records_to_empty old_ipv4s ho
    rw [run_change_records_of_some env config old_ipv4s _ "A" eff _ _ hc, hmr,
      map_clientError_some, pipe_err]

/-- Counterexample to C3 as stated: a Multi-mode reconciliation whose
membership has emptied issues a DELETE; the backend rejects it as an invalid
change batch and the error propagates out of `process_message` instead of
being swallowed. -/
theorem multi_delete_conflict_propagates :
    (process_message envMultiConflict msgTerminateGrp Effects.empty).2 =
      some (PyErr.clientError "InvalidChangeBatch") ∧
    (process_message envMultiConflict msgTerminateGrp Effects.empty).1.mutations =
      [⟨"Z1", "app", "A", "DELETE", {"10.0.0.1"}⟩] := by
  constructor
  · decide
  · decide

/-- Witness for the amended C3: the single-mode terminate pass swallows the
conflict, while the same conflict propagates from the Multi-mode branch. -/
theorem delete_conflict_scope_witness :
    (single_terminate_one envSingleConflict cfgApp "i-9" Effects.empty).2 = none ∧
    (multi_branch envMultiConflict cfgApp "grp" ["i-9"] {"10.0.0.1"} ∅
        Effects.empty).2
      = some (PyErr.clientError "InvalidChangeBatch") :=
  ⟨(delete_conflict_scope envSingleConflict cfgApp "i-9" "grp" [] ∅ ∅
      Effects.empty).1 (fun _ _ => Or.inr rfl),
   (delete_conflict_scope envMultiConflict cfgApp "i-9" "grp" ["i-9"]
      {"10.0.0.1"} ∅ Effects.empty).2.2 (by decide) (by decide) (by decide)⟩

lemma runSeq_single {α : Type} (f : α → Effects → Effects × Option PyErr)
    (x : α) (eff : Effects) : runSeq f [x] eff = f x eff := by
  rw [runSeq_cons]
  rcases h : f x eff with ⟨e1, err⟩
  rcases err with _ | err
  · rw [pipe_ok, runSeq_nil]
  · rw [pipe_err]

lemma launch_step_spec (env : Env) (config : HostnameConfig)
    (old new : Finset String) (rt : String) (eff : Effects) :
    ∃ ms err, launch_family_step env config (old, new, rt) eff =
        ({ eff with mutations := eff.mutations ++ ms }, err) ∧
      (∀ m ∈ ms, m.action = "UPSERT" ∧ m.record_type = rt) ∧
      (new = (∅ : Finset String) → ms = []) := by
  rw [launch_family_step_eq]
  by_cases hne : new = (∅ : Finset String)
  · rw [if_neg (not_not_intro hne)]
    exact ⟨[], none, by rw [effects_append_nil], by simp, fun _ => rfl⟩
  · rw [if_pos hne]
    rcases change_records_cases old new with ⟨he, hcr⟩ | ⟨h1, h2, hcr⟩ | ⟨h1, h2, hcr⟩
    · exact ⟨[], none,
        by rw [run_change_records_of_none env config old new rt eff hcr,
          effects_append_nil],
        by simp, fun h => absurd h hne⟩
    · refine ⟨[⟨config.zone_id, config.hostname, rt, "UPSERT", new⟩], _,
        run_change_records_of_some env config old new rt eff _ _ hcr, ?_,
        fun h => absurd h hne⟩
      intro m hm
      rw [List.mem_singleton] at hm
      subst hm
      exact ⟨rfl, rfl⟩
    · exact absurd h2 hne

lemma single_launch_one_spec (env : Env) (config : HostnameConfig)
    (old_ipv4s old_ipv6s : Finset String) (instance_id : String) (eff : Effects) :
    ∃ ms, (single_launch_one env config old_ipv4s old_ipv6s instance_id eff).1 =
        { eff with mutations := eff.mutations ++ ms } ∧
      (∀ m ∈ ms, m.action = "UPSERT" ∧
        (m.record_type = "A" ∨ m.record_type = "AAAA")) ∧
      ((fetch_ip_from_ec2 env instance_id).1 = (∅ : Finset String) →
        ∀ m ∈ ms, ¬ m.record_type = "A") ∧
      ((fetch_ip_from_ec2 env instance_id).2 = (∅ : Finset String) →
        ∀ m ∈ ms, ¬ m.record_type = "AAAA") := by
  obtain ⟨ms4, err4, h4eq, h4props, h4emp⟩ :=
    launch_step_spec env config old_ipv4s (fetch_ip_from_ec2 env instance_id).1
      "A" eff
  unfold single_launch_one
  rw [runSeq_cons, h4eq]
  rcases err4 with _ | perr4
  · rw [pipe_ok]
    obtain ⟨ms6, err6, h6eq, h6props, h6emp⟩ :=
      launch_step_spec env config old_ipv6s (fetch_ip_from_ec2 env instance_id).2
        "AAAA" { eff with mutations := eff.mutations ++ ms4 }
    rw [runSeq_single, h6eq]
    refine ⟨ms4 ++ ms6, ?_, ?_, ?_, ?_⟩
    · show ({ { eff with mutations := eff.mutations ++ ms4 } with
          mutations := eff.mutations ++ ms4 ++ ms6 }) =
        { eff with mutations := eff.mutations ++ (ms4 ++ ms6) }
      rw [List.append_assoc]
    · intro m hm
      rcases List.mem_append.mp hm with hm4 | hm6
      · exact ⟨(h4props m hm4).1, Or.inl (h4props m hm4).2⟩
      · exact ⟨(h6props m hm6).1, Or.inr (h6props m hm6).2⟩
    · intro hempA m hm
      rcases List.mem_append.mp hm with hm4 | hm6
      · rw [h4emp hempA] at hm4
        exact absurd hm4 (List.not_mem_nil m)
      · rw [(h6props m hm6).2]
        decide
    · intro hempB m hm
      rcases List.mem_append.mp hm with hm4 | hm6
      · rw [(h4props m hm4).2]
        decide
      · rw [h6emp hempB] at hm6
        exact absurd hm6 (List.not_mem_nil m)
  · rw [pipe_err]
    refine ⟨ms4, rfl, ?_, ?_, ?_⟩
    · intro m hm
      exact ⟨(h4props m hm).1, Or.inl (h4props m hm).2⟩
    · intro hempA m hm
      rw [h4emp hempA] at hm
      exact absurd hm (List.not_mem_nil m)
    · intro hempB m hm
      rw [(h4props m hm).2]
      decide

lemma single_branch_launch_only (env : Env) (config : HostnameConfig)
    (iid : String) (o4 o6 : Finset String) (eff : Effects) :
    single_branch env config [iid] [] o4 o6 eff =
      single_launch_one env config o4 o6 iid eff := by
  unfold single_branch
  rw [runSeq_single]
  rcases h : single_launch_one env config o4 o6 iid eff with ⟨e1, err⟩
  rcases err with _ | err
  · rw [pipe_ok, runSeq_nil]
  · rw [pipe_err]

lemma process_message_single_launch (env : Env) (msg : Message)
    (iid asg_name : String) (config : HostnameConfig) (eff : Effects)
    (ht : msg.get? "LifecycleTransition" = some TRANSITION_LAUNCHING)
    (hi : msg.get? "EC2InstanceId" = some iid)
    (ha : msg.get? ASG_KEY = some asg_name)
    (hc : (from_asg_name env asg_name).1 = some config)
    (hs : config.is_single = true) :
    process_message env msg eff =
      single_launch_one env config
        (fetch_values_from_route53 env config "A")
        (fetch_values_from_route53 env config "AAAA") iid
        { eff with
          tagged := eff.tagged ++ [],
          reads := eff.reads ++
            [(config.zone_id, config.hostname, "A"),
             (config.zone_id, config.hostname, "AAAA")] } := by
  unfold process_message
  rw [ht]
  dsimp only
  rw [if_pos rfl, hi]
  dsimp only
  unfold process_transition
  rw [ha]
  dsimp only
  rw [hc]
  dsimp only
  rw [if_pos hs, single_branch_launch_only]

/-- C4: in Single mode, a Launching event only ever UPSERTs, and a family for
which the launching instance has no addresses receives no mutation at all (its
existing record set is left untouched); in particular a Launching event never
issues a DELETE for any family. -/
theorem single_launch_nondestructive (env : Env) (msg : Message)
    (iid asg_name : String) (config : HostnameConfig)
    (ht : msg.get? "LifecycleTransition" = some TRANSITION_LAUNCHING)
    (hi : msg.get? "EC2InstanceId" = some iid)
    (ha : msg.get? ASG_KEY = some asg_name)
    (hc : (from_asg_name env asg_name).1 = some config)
    (hs : config.is_single = true) :
    ∃ ms, (process_message env msg Effects.empty).1.mutations = ms ∧
      (∀ m ∈ ms, m.action = "UPSERT") ∧
      ((fetch_ip_from_ec2 env iid).1 = (∅ : Finset String) →
        ∀ m ∈ ms, ¬ m.record_type = "A") ∧
      ((fetch_ip_from_ec2 env iid).2 = (∅ : Finset String) →
        ∀ m ∈ ms, ¬ m.record_type = "AAAA") := by
  rw [process_message_single_launch env msg iid asg_name config Effects.empty
    ht hi ha hc hs]
  obtain ⟨ms, hms, hprops, h4, h6⟩ :=
    single_launch_one_spec env config
      (fetch_values_from_route53 env config "A")
      (fetch_values_from_route53 env config "AAAA") iid
      { Effects.empty with
        tagged := Effects.empty.tagged ++ [],
        reads := Effects.empty.reads ++
          [(config.zone_id, config.hostname, "A"),
           (config.zone_id, config.hostname, "AAAA")] }
  refine ⟨ms, ?_, fun m hm => (hprops m hm).1, h4, h6⟩
  rw [hms]
  simp [Effects.empty]

/-- Witness for C4: a single-mode launch of an IPv4-only instance, with a live
AAAA record from a previous holder, issues only UPSERTs and no AAAA
mutation. -/
theorem single_launch_nondestructive_witness :
    ∃ ms, (process_message envSingleLaunch msgLaunchGrp
        Effects.empty).1.mutations = ms ∧
      (∀ m ∈ ms, m.action = "UPSERT") ∧
      ((fetch_ip_from_ec2 envSingleLaunch "i-1").1 = (∅ : Finset String) →
        ∀ m ∈ ms, ¬ m.record_type = "A") ∧
      ((fetch_ip_from_ec2 envSingleLaunch "i-1").2 = (∅ : Finset String) →
        ∀ m ∈ ms, ¬ m.record_type = "AAAA") :=
  single_launch_nondestructive envSingleLaunch msgLaunchGrp "i-1" "grp"
    ⟨"grp", "app", "Z1", MODE_SINGLE⟩ (by decide) (by decide) (by decide)
    (by decide) rfl

lemma foldl_collect_mem_fst (ignore : List String) (l : List Ec2Instance)
    (acc : Finset String × Finset String) (a : String) :
    a ∈ (l.foldl (collectGroupInstance ignore) acc).1 ↔
      a ∈ acc.1 ∨ ∃ i ∈ l, i.instanceId ∉ ignore ∧ hasTerminatingTag i = false ∧
        i.ipv4 = some a := by
  induction l generalizing acc with
  | nil => simp
  | cons x xs ih =>
    rw [List.foldl_cons, ih, List.exists_mem_cons_iff]
    unfold collectGroupInstance collectAddresses
    by_cases hig : x.instanceId ∈ ignore
    · rw [if_pos hig]
      have hx : ¬ (x.instanceId ∉ ignore ∧ hasTerminatingTag x = false ∧
          x.ipv4 = some a) := fun h => h.1 hig
      tauto
    · rw [if_neg hig]
      rcases hb : hasTerminatingTag x with _ | _
      · rw [if_neg Bool.false_ne_true]
        rcases hx4 : x.ipv4 with _ | v4
        · dsimp only
          have hx : ¬ (x.instanceId ∉ ignore ∧ false = false ∧
              (none : Option String) = some a) := fun h => Option.noConfusion h.2.2
          tauto
        · dsimp only
          rw [Finset.mem_insert]
          have hx : (x.instanceId ∉ ignore ∧ false = false ∧
              some v4 = some a) ↔ a = v4 := by
            constructor
            · intro h
              exact (Option.some_inj.mp h.2.2).symm
            · intro h
              exact ⟨hig, rfl, by rw [h]⟩
          tauto
      · rw [if_pos rfl]
        have hx : ¬ (x.instanceId ∉ ignore ∧ true = false ∧
            x.ipv4 = some a) := fun h => Bool.noConfusion h.2.1
        tauto

lemma foldl_collect_mem_snd (ignore : List String) (l : List Ec2Instance)
    (acc : Finset String × Finset String) (a : String) :
    a ∈ (l.foldl (collectGroupInstance ignore) acc).2 ↔
      a ∈ acc.2 ∨ ∃ i ∈ l, i.instanceId ∉ ignore ∧ hasTerminatingTag i = false ∧
        i.ipv6 = some a := by
  induction l generalizing acc with
  | nil => simp
  | cons x xs ih =>
    rw [List.foldl_cons, ih, List.exists_mem_cons_iff]
    unfold collectGroupInstance collectAddresses
    by_cases hig : x.instanceId ∈ ignore
    · rw [if_pos hig]
      have hx : ¬ (x.instanceId ∉ ignore ∧ hasTerminatingTag x = false ∧
          x.ipv6 = some a) := fun h => h.1 hig
      tauto
    · rw [if_neg hig]
      rcases hb : hasTerminatingTag x with _ | _
      · rw [if_neg Bool.false_ne_true]
        rcases hx6 : x.ipv6 with _ | v6
        · dsimp only
          have hx : ¬ (x.instanceId ∉ ignore ∧ false = false ∧
              (none : Option String) = some a) := fun h => Option.noConfusion h.2.2
          tauto
        · dsimp only
          rw [Finset.mem_insert]
          have hx : (x.instanceId ∉ ignore ∧ false = false ∧
              some v6 = some a) ↔ a = v6 := by
            constructor
            · intro h
              exact (Option.some_inj.mp h.2.2).symm
            · intro h
              exact ⟨hig, rfl, by rw [h]⟩
          tauto
      · rw [if_pos rfl]
        have hx : ¬ (x.instanceId ∉ ignore ∧ true = false ∧
            x.ipv6 = some a) := fun h => Bool.noConfusion h.2.1
        tauto

/-- C5: an address belongs to the membership snapshot of `fetch_instance_ips`
exactly when some running instance of the group that is neither in the
caller's exclusion collection nor carries the terminating marker tag holds it;
in particular an instance tagged `asg:terminating = true` contributes no
addresses, even while running and outside the explicit exclusion list. -/
theorem terminating_tag_excluded (env : Env) (asg_name : String)
    (ignore_ids : List String) (a : String) :
    (a ∈ (fetch_instance_ips env asg_name ignore_ids).1 ↔
      ∃ i ∈ env.asgInstances asg_name, i.instanceId ∉ ignore_ids ∧
        hasTerminatingTag i = false ∧ i.ipv4 = some a) ∧
    (a ∈ (fetch_instance_ips env asg_name ignore_ids).2 ↔
      ∃ i ∈ env.asgInstances asg_name, i.instanceId ∉ ignore_ids ∧
        hasTerminatingTag i = false ∧ i.ipv6 = some a) := by
  unfold fetch_instance_ips
  constructor
  · rw [foldl_collect_mem_fst]
    simp
  · rw [foldl_collect_mem_snd]
    simp

/-- C6 (amended): policy resolution accepts a hostname tag value exactly when
it contains at least one separator: the value is split at the FIRST `@`
(Python `split("@", 1)`), the part before it becomes the hostname and
everything after it — possibly containing further `@` characters — becomes the
zone id.  A value with no separator (including the absent-tag default of the
empty string) fails resolution with an error-severity log, and any event whose
group resolves to no config produces no Route53 read and no mutation. -/
theorem hostname_tag_split_acceptance (env : Env) (asg_name : String) :
    ((splitChar '@' (rawHostnameTag env asg_name)).length = 1 →
      from_asg_name env asg_name =
        (none, [⟨LogLevel.error, logHostnameTagMalformed⟩])) ∧
    (2 ≤ (splitChar '@' (rawHostnameTag env asg_name)).length →
      modeOf env asg_name ∈ MODES_VALID →
      (from_asg_name env asg_name).1 = some
        ⟨asg_name, (splitChar '@' (rawHostnameTag env asg_name)).getD 0 "",
          joinWithChar '@' ((splitChar '@' (rawHostnameTag env asg_name)).tail),
          modeOf env asg_name⟩) ∧
    (∀ (msg : Message) (eff : Effects),
      (∀ g, msg.get? ASG_KEY = some g → (from_asg_name env g).1 = none) →
      (process_message env msg eff).1.reads = eff.reads ∧
      (process_message env msg eff).1.mutations = eff.mutations) := by
  refine ⟨?_, ?_, ?_⟩
  · intro h1
    rcases hsp : splitChar '@' (rawHostnameTag env asg_name) with _ | ⟨x, l2⟩
    · rw [hsp] at h1
      simp at h1
    · rcases l2 with _ | ⟨y, t⟩
      · unfold from_asg_name splitMax1
        rw [hsp]
        dsimp only
        rw [if_neg (by simp), if_pos (by simp)]
      · rw [hsp] at h1
        simp at h1
  · intro h2 hmode
    rcases hsp : splitChar '@' (rawHostnameTag env asg_name) with _ | ⟨x, l2⟩
    · rw [hsp] at h2
      simp at h2
    · rcases l2 with _ | ⟨y, t⟩
      · rw [hsp] at h2
        simp at h2
      · unfold from_asg_name splitMax1
        rw [hsp]
        dsimp only
        rw [if_neg (by simp), if_neg (by simp), if_pos hmode]
        simp [List.getD]
  · intro msg eff hnone
    unfold process_message
    rcases hlt : msg.get? "LifecycleTransition" with _ | transition
    · rcases hev : msg.get? "Event" with _ | ev
      · exact ⟨rfl, rfl⟩
      · exact ⟨rfl, rfl⟩
    · dsimp only
      by_cases hl : transition = TRANSITION_LAUNCHING
      · rw [if_pos hl]
        rcases hid : msg.get? "EC2InstanceId" with _ | iid
        · exact ⟨rfl, rfl⟩
        · unfold process_transition
          rcases hasg : msg.get? ASG_KEY with _ | g
          · exact ⟨rfl, rfl⟩
          · dsimp only
            rw [hnone g hasg]
            exact ⟨rfl, rfl⟩
      · rw [if_neg hl]
        by_cases h2 : transition = TRANSITION_TERMINATING ∨
            transition = TRANSITION_LAUNCH_ERROR
        · rw [if_pos h2]
          rcases hid : msg.get? "EC2InstanceId" with _ | iid
          · exact ⟨rfl, rfl⟩
          · unfold process_transition
            rcases hasg : msg.get? ASG_KEY with _ | g
            · exact ⟨rfl, rfl⟩
            · dsimp only
              rw [hnone g hasg]
              exact ⟨rfl, rfl⟩
        · rw [if_neg h2]
          exact ⟨rfl, rfl⟩

/-- Counterexample to C6 as stated: the tag value `a@b@c` holds two
separators, yet resolution succeeds (with hostname `a` and zone id `b@c`)
instead of failing. -/
theorem double_separator_accepted :
    (splitChar '@' "a@b@c").length = 3 ∧
    (from_asg_name envDoubleSep "g").1 = some ⟨"g", "a", "b@c", MODE_MULTI⟩ := by
  constructor
  · decide
  · decide

/-- Witness for the amended C6: a well-formed one-separator value resolves to
its two parts, the empty (absent-tag) value fails with the error log, and a
group resolving to none yields no Route53 traffic. -/
theorem hostname_tag_split_acceptance_witness :
    (from_asg_name envTriv "grp" =
      (none, [⟨LogLevel.error, logHostnameTagMalformed⟩])) ∧
    ((from_asg_name envThrottle "grp").1 = some
      ⟨"grp", (splitChar '@' (rawHostnameTag envThrottle "grp")).getD 0 "",
        joinWithChar '@' ((splitChar '@' (rawHostnameTag envThrottle "grp")).tail),
        modeOf envThrottle "grp"⟩) ∧
    ((process_message envTriv msgLaunchGrp Effects.empty).1.reads =
        Effects.empty.reads ∧
      (process_message envTriv msgLaunchGrp Effects.empty).1.mutations =
        Effects.empty.mutations) :=
  ⟨(hostname_tag_split_acceptance envTriv "grp").1 (by decide),
   (hostname_tag_split_acceptance envThrottle "grp").2.1 (by decide) (by decide),
   (hostname_tag_split_acceptance envTriv "anything").2.2 msgLaunchGrp Effects.empty
     (fun g hg => by
       have : g = "grp" := by
         have := hg
         simp [Message.get?, msgLaunchGrp, ASG_KEY] at this
         exact this.symm
       rw [this]
       decide)⟩

/-- C7: resolution for a group with no hostname tag does return no policy and
the event produces no Route53 read or write and no error — but the failure is
logged at ERROR severity through the malformed-value branch, not silently: the
dedicated absent-tag warning branch is dead code, because Python
`"".split("@", 1)` is the non-empty list `[""]` (second conjunct: the split
never yields an empty list, so the emptiness test can never fire). -/
theorem no_hostname_tag_error_logged :
    from_asg_name envTriv "grp" =
      (none, [⟨LogLevel.error, logHostnameTagMalformed⟩]) ∧
    (∀ s : String, splitMax1 '@' s ≠ []) ∧
    (process_message envTriv msgLaunchGrp Effects.empty).1.reads = [] ∧
    (process_message envTriv msgLaunchGrp Effects.empty).1.mutations = [] ∧
    (process_message envTriv msgLaunchGrp Effects.empty).2 = none := by
  refine ⟨by decide, ?_, by decide, by decide, by decide⟩
  intro s
  unfold splitMax1
  rcases h : splitChar '@' s with _ | ⟨x, _ | _⟩ <;> simp

/-- C10: the completion block of `lambda_handler` is guarded only by the
presence of `LifecycleHookName` and `AutoScalingGroupName`; a message carrying
those two keys but no `EC2InstanceId` makes the handler raise an uncaught
`KeyError` (its `except` clause matches only client errors), while the same
message with all four fields completes exactly once without error. -/
theorem completion_keyerror_on_missing_fields :
    lambda_handler envTriv [ msgNoInstanceId ] =
      (Effects.empty, some (PyErr.keyError "EC2InstanceId")) ∧
    (lambda_handler envTriv [ msgAllFields ]).2 = none ∧
    (lambda_handler envTriv [ msgAllFields ]).1.completions =
      [("hook", "grp", "i-1", "tok")] := by
  refine ⟨by decide, by decide, by decide⟩

/-- Counterexample to C8 as stated: an event carrying all four
lifecycle-completion fields whose DNS reconciliation fails with a propagated
(non-conflict) backend error never reaches the completion call — zero
completion signals are sent, not one. -/
theorem completion_skipped_on_error :
    msgLaunchFull.get? LIFECYCLE_KEY = some "hook" ∧
    msgLaunchFull.get? ASG_KEY = some "grp" ∧
    msgLaunchFull.get? "EC2InstanceId" = some "i-1" ∧
    msgLaunchFull.get? "LifecycleActionToken" = some "tok" ∧
    (lambda_handler envThrottle [ msgLaunchFull ]).2 =
      some (PyErr.clientError "Throttling") ∧
    (lambda_handler envThrottle [ msgLaunchFull ]).1.completions = [] := by
  refine ⟨by decide, by decide, by decide, by decide, by decide, by decide⟩

/-- C8 (amended): for an event carrying the completion fields, the completion
signal is sent exactly once when DNS processing finishes without a propagated
error, and the completion call's own failure (a client error, of any code,
from any environment) is swallowed; when DNS processing raises, the error
propagates and no completion is sent for that event. -/
theorem completion_after_success (env : Env) (msg : Message) (eff : Effects)
    (hook asg iid tok : String)
    (h1 : msg.get? LIFECYCLE_KEY = some hook)
    (h2 : msg.get? ASG_KEY = some asg)
    (h3 : msg.get? "EC2InstanceId" = some iid)
    (h4 : msg.get? "LifecycleActionToken" = some tok) :
    (∀ e, process_message env msg eff = (e, none) →
      handle_record env msg eff =
        ({ e with completions := e.completions ++ [(hook, asg, iid, tok)] },
          none)) ∧
    (∀ e err, process_message env msg eff = (e, some err) →
      handle_record env msg eff = (e, some err)) := by
  constructor
  · intro e hp
    unfold handle_record
    rw [hp, pipe_ok]
    unfold completion_step
    rw [h1, h2]
    dsimp only
    rw [h3]
    dsimp only
    rw [h4]
  · intro e err hp
    unfold handle_record
    rw [hp, pipe_err]

/-- Witness for the amended C8: a processed event with all four fields gets
exactly one completion signal. -/
theorem completion_after_success_witness :
    handle_record envTriv msgAllFields Effects.empty =
      ({ Effects.empty with
          completions := Effects.empty.completions ++
            [("hook", "grp", "i-1", "tok")] }, none) :=
  (completion_after_success envTriv msgAllFields Effects.empty "hook" "grp"
    "i-1" "tok" (by decide) (by decide) (by decide) (by decide)).1
    Effects.empty (by decide)

/-- Counterexample to C9 as stated: with two events in the batch, a propagated
failure on the first leaves the second wholly unprocessed — every Route53 read
in the trace belongs to the first group's zone, although the second event
alone does produce reads. -/
theorem batch_abort_on_error :
    (lambda_handler envTwoGroups [ msgLaunchG1, msgLaunchG2 ]).2 =
      some (PyErr.clientError "Throttling") ∧
    (∀ r ∈ (lambda_handler envTwoGroups [ msgLaunchG1, msgLaunchG2 ]).1.reads,
      r.1 = "Z1") ∧
    (lambda_handler envTwoGroups [ msgLaunchG2 ]).2 = none ∧
    (lambda_handler envTwoGroups [ msgLaunchG2 ]).1.reads ≠ [] := by
  refine ⟨by decide, by decide, by decide, by decide⟩

/-- C9 (amended): a propagated failure while processing one record aborts the
whole batch: the error escapes `lambda_handler` with the effects made so far,
and the records after the failing one are not processed at all. -/
theorem failure_aborts_batch (env : Env) (r : Message) (rest : List Message)
    (e : Effects) (err : PyErr)
    (h : handle_record env r Effects.empty = (e, some err)) :
    lambda_handler env (r :: rest) = (e, some err) := by
  unfold lambda_handler
  rw [runSeq_cons, h, pipe_err]

/-- Witness for the amended C9 at the concrete two-record batch. -/
theorem failure_aborts_batch_witness :
    lambda_handler envTwoGroups [ msgLaunchG1, msgLaunchG2 ] =
      ((lambda_handler envTwoGroups [ msgLaunchG1 ]).1,
        some (PyErr.clientError "Throttling")) :=
  failure_aborts_batch envTwoGroups msgLaunchG1 [ msgLaunchG2 ]
    (lambda_handler envTwoGroups [ msgLaunchG1 ]).1
    (PyErr.clientError "Throttling") (by decide)
